import Mathlib

/-!
Verification of the tokensmith token-exchange core.

The Go source is embedded shallowly:
  * `time.Time` instants become `Int` (seconds); `t.After(u)` is `u < t`.
  * Kubernetes clients and HTTP are oracles passed as function arguments;
    fallible Go calls become `Except String _`.
  * Go maps become association lists where an insert replaces the previous
    binding for the key.
Every definition mirrors the corresponding function of the source tree
(`internal/token`, `internal/authz`, `internal/config`).
-/

namespace Tokensmith

/-- The `internal/token/validator.go`: ServiceAccountIdentity. -/
structure ServiceAccountIdentity where
  Namespace : String
  Name : String
  UID : String
  Username : String
deriving Repr, DecidableEq

/-! ## Token cache (`internal/token/cache.go`) -/

/-- The `cacheEntry` of cache.go: a cached token with its expiration instant. -/
structure cacheEntry where
  token : String
  expiresAt : Int
deriving Repr, DecidableEq

/-- The `entries` map of `Cache`, as an association list with at most one
binding per uid (inserts replace). -/
abbrev Cache := List (String × cacheEntry)

/-- Lookup in the underlying map (`c.entries[uid]`). -/
def Cache.getEntry : Cache → String → Option cacheEntry
  | [], _ => none
  | p :: rest, uid => if p.1 = uid then some p.2 else Cache.getEntry rest uid

/-- The `Cache.Get`: returns `(token, true)` if an entry exists and
`time.Now().After(entry.expiresAt)` is false, `("", false)` otherwise. -/
def Cache.Get (c : Cache) (now : Int) (uid : String) : String × Bool :=
  match Cache.getEntry c uid with
  | none => ("", false)
  | some entry =>
    if entry.expiresAt < now then ("", false)
    else (entry.token, true)

/-- The `Cache.Set`: map assignment `c.entries[uid] = cacheEntry{token, expiresAt}`. -/
def Cache.Set (c : Cache) (uid : String) (token : String) (expiresAt : Int) : Cache :=
  (uid, ⟨token, expiresAt⟩) :: c.filter (fun p => p.1 != uid)

/-- The `Cache.Get` in Go holds only the read lock and performs no mutation, so
the state of the map when the method returns is the state it was called
with; this pairs the return value with that (unchanged) post-state. -/
def Cache.GetStateful (c : Cache) (now : Int) (uid : String) :
    (String × Bool) × Cache :=
  (Cache.Get c now uid, c)

/-- The `Cache.cleanup`: removes every entry with `now.After(entry.expiresAt)`. -/
def Cache.cleanup (c : Cache) (now : Int) : Cache :=
  c.filter (fun p => !(p.2.expiresAt < now))

/-! ## Exchanger (`internal/token/exchanger.go`) -/

/-- The `ExchangeConfig` after `NewExchanger` applied the defaults, so
`ExpirationSeconds` is a plain value rather than a pointer. -/
structure ExchangeConfig where
  Audiences : List String
  ExpirationSeconds : Int
deriving Repr, DecidableEq

/-- The one field of the management-cluster ServiceAccount object the
exchanger reads (`sa.UID`). -/
structure ServiceAccount where
  UID : String
deriving Repr, DecidableEq

/-- The `authenticationv1.TokenRequestSpec` as populated by the exchanger. -/
structure TokenRequestSpec where
  Audiences : List String
  ExpirationSeconds : Int
deriving Repr, DecidableEq

/-- The fields of `TokenRequestStatus` the exchanger reads:
`result.Status.Token` and `result.Status.ExpirationTimestamp.Time`. -/
structure TokenRequestStatus where
  Token : String
  ExpirationTimestamp : Int
deriving Repr, DecidableEq

/-- The management-cluster client operations the exchanger performs:
`ServiceAccounts(ns).Get(name)` and `ServiceAccounts(ns).CreateToken(name, req)`. -/
structure KubeClient where
  getServiceAccount : String → String → Except String ServiceAccount
  createToken : String → String → TokenRequestSpec → Except String TokenRequestStatus

/-- One call made against the management cluster, recorded with the
namespace and name arguments that were passed. -/
inductive MgmtCall where
  | getSA (ns : String) (name : String)
  | createToken (ns : String) (name : String) (spec : TokenRequestSpec)
deriving Repr, DecidableEq

/-- Namespace argument of a recorded management-cluster call. -/
def MgmtCall.ns : MgmtCall → String
  | .getSA ns _ => ns
  | .createToken ns _ _ => ns

/-- Name argument of a recorded management-cluster call. -/
def MgmtCall.name : MgmtCall → String
  | .getSA _ name => name
  | .createToken _ name _ => name

/-- The `authenticationv1.TokenRequest` spec the exchanger builds from its
configuration (`Audiences` and `ExpirationSeconds`). -/
def ExchangeConfig.tokenRequest (config : ExchangeConfig) : TokenRequestSpec :=
  ⟨config.Audiences, config.ExpirationSeconds⟩

/-- The `Exchanger.Exchange`. The result is the returned token or error, the
token-cache state when the call returns, and the trace of management-cluster
calls the code issued. The Go local `cacheKey := string(identity.UID)` is
inlined as `identity.UID`. -/
def Exchanger.Exchange (client : KubeClient) (config : ExchangeConfig)
    (cache : Cache) (now : Int) (identity : ServiceAccountIdentity) :
    Except String String × Cache × List MgmtCall :=
  match Cache.Get cache now identity.UID with
  | (token, true) => (.ok token, cache, [])
  | (_, false) =>
    match client.getServiceAccount identity.Namespace identity.Name with
    | .error e =>
      (.error (("service account not found in management cluster: ") ++ e),
       cache, [.getSA identity.Namespace identity.Name])
    | .ok _sa =>
      match client.createToken identity.Namespace identity.Name config.tokenRequest with
      | .error e =>
        (.error (("failed to create token for service account: ") ++ e),
         cache,
         [.getSA identity.Namespace identity.Name,
          .createToken identity.Namespace identity.Name config.tokenRequest])
      | .ok result =>
        if result.Token = ("") then
          (.error ("received empty token from TokenRequest API"),
           cache,
           [.getSA identity.Namespace identity.Name,
            .createToken identity.Namespace identity.Name config.tokenRequest])
        else
          (.ok result.Token,
           Cache.Set cache identity.UID result.Token result.ExpirationTimestamp,
           [.getSA identity.Namespace identity.Name,
            .createToken identity.Namespace identity.Name config.tokenRequest])

/-- The `TokenMetadata` of exchanger.go. -/
structure TokenMetadata where
  Token : String
  Namespace : String
  ServiceAccount : String
  ExpirationTime : Int
  ServiceAccountUID : String
deriving Repr, DecidableEq

/-- The `Exchanger.ExchangeWithMetadata`, with the same embedding conventions as
`Exchanger.Exchange`. On a cache hit the expiration reported is
`time.Now().Add(ExpirationSeconds seconds)` = `now + ExpirationSeconds`. -/
def Exchanger.ExchangeWithMetadata (client : KubeClient) (config : ExchangeConfig)
    (cache : Cache) (now : Int) (identity : ServiceAccountIdentity) :
    Except String TokenMetadata × Cache × List MgmtCall :=
  match Cache.Get cache now identity.UID with
  | (token, true) =>
    (.ok ⟨token, identity.Namespace, identity.Name,
          now + config.ExpirationSeconds, identity.UID⟩,
     cache, [])
  | (_, false) =>
    match client.getServiceAccount identity.Namespace identity.Name with
    | .error e =>
      (.error (("service account not found in management cluster: ") ++ e),
       cache, [.getSA identity.Namespace identity.Name])
    | .ok sa =>
      match client.createToken identity.Namespace identity.Name config.tokenRequest with
      | .error e =>
        (.error (("failed to create token for service account: ") ++ e),
         cache,
         [.getSA identity.Namespace identity.Name,
          .createToken identity.Namespace identity.Name config.tokenRequest])
      | .ok result =>
        if result.Token = ("") then
          (.error ("received empty token from TokenRequest API"),
           cache,
           [.getSA identity.Namespace identity.Name,
            .createToken identity.Namespace identity.Name config.tokenRequest])
        else
          (.ok ⟨result.Token, identity.Namespace, identity.Name,
                result.ExpirationTimestamp, sa.UID⟩,
           Cache.Set cache identity.UID result.Token result.ExpirationTimestamp,
           [.getSA identity.Namespace identity.Name,
            .createToken identity.Namespace identity.Name config.tokenRequest])

/-! ## Cluster registry configuration (`internal/config/clusters.go`) -/

/-- A JSON Web Key; only its presence matters to the validated code paths,
so the key material is abstracted to its identifier. -/
structure JSONWebKey where
  KeyID : String
deriving Repr, DecidableEq

/-- The `jose.JSONWebKeySet`: `{ "keys": [ ... ] }`. -/
structure JSONWebKeySet where
  Keys : List JSONWebKey
deriving Repr, DecidableEq

/-- The `ClusterConfig` of clusters.go; `JWKSData == nil` becomes `none`. -/
structure ClusterConfig where
  Name : String
  Issuer : String
  JWKSURI : String
  JWKSData : Option JSONWebKeySet
deriving Repr, DecidableEq

/-- The `ClustersConfig` of clusters.go. -/
structure ClustersConfig where
  Clusters : List ClusterConfig
deriving Repr, DecidableEq

/-- The `ClusterConfig.Validate`. -/
def ClusterConfig.Validate (c : ClusterConfig) : Except String Unit :=
  if c.Name = ("") then .error ("name is required")
  else if c.Issuer = ("") then .error ("issuer is required")
  else if c.JWKSURI = ("") ∧ c.JWKSData = none then
    .error ("either jwks_uri or jwks_data must be provided")
  else
    match c.JWKSData with
    | some d =>
      if d.Keys.length = 0 then
        .error ("jwks_data must contain at least one key")
      else .ok ()
    | none => .ok ()

/-- The loop body of `ClustersConfig.Validate`, carrying the `issuers` and
`names` sets (as lists) and the index `i`. -/
def ClustersConfig.validateLoop :
    List ClusterConfig → Nat → List String → List String → Except String Unit
  | [], _, _, _ => .ok ()
  | cluster :: rest, i, issuers, names =>
    match cluster.Validate with
    | .error e =>
      .error ((("cluster[") ++ toString i ++ ("]: ")) ++ e)
    | .ok () =>
      if issuers.contains cluster.Issuer then
        .error ((("cluster[") ++ toString i ++ ("]: duplicate issuer ")) ++ cluster.Issuer)
      else if names.contains cluster.Name then
        .error ((("cluster[") ++ toString i ++ ("]: duplicate name ")) ++ cluster.Name)
      else
        ClustersConfig.validateLoop rest (i + 1)
          (cluster.Issuer :: issuers) (cluster.Name :: names)

/-- The `ClustersConfig.Validate`: at least one cluster, each cluster valid, no
duplicate issuer or name. -/
def ClustersConfig.Validate (c : ClustersConfig) : Except String Unit :=
  if c.Clusters.length = 0 then
    .error ("at least one cluster must be configured")
  else
    ClustersConfig.validateLoop c.Clusters 0 [] []

/-- The `ClustersConfig.FindByIssuer`: first cluster whose issuer matches exactly. -/
def ClustersConfig.FindByIssuer (c : ClustersConfig) (issuer : String) :
    Option ClusterConfig :=
  c.Clusters.find? (fun cl => cl.Issuer == issuer)

/-! ## JWKS provider (`internal/token/jwks.go`) -/

/-- The `cachedJWKS`: a fetched key set with its fetch instant. -/
structure cachedJWKS where
  jwks : JSONWebKeySet
  fetchedAt : Int
deriving Repr, DecidableEq

/-- The `cache` map of `JWKSValidator`, keyed by JWKS URI. -/
abbrev JWKSCache := List (String × cachedJWKS)

/-- Lookup in the JWKS cache (`v.cache[uri]`). -/
def JWKSCache.lookup : JWKSCache → String → Option cachedJWKS
  | [], _ => none
  | p :: rest, uri => if p.1 = uri then some p.2 else JWKSCache.lookup rest uri

/-- Map assignment `v.cache[uri] = entry`. -/
def JWKSCache.set (c : JWKSCache) (uri : String) (entry : cachedJWKS) : JWKSCache :=
  (uri, entry) :: c.filter (fun p => p.1 != uri)

/-- The HTTP response fields `fetchJWKS` inspects. -/
structure HTTPResponse where
  StatusCode : Int
  Body : String
deriving Repr, DecidableEq

/-- The outbound HTTP GET (`v.client.Do`) and the JSON decoding
(`json.Unmarshal` into a `jose.JSONWebKeySet`), as oracles. -/
structure HTTPWorld where
  httpGet : String → Except String HTTPResponse
  parseJWKS : String → Except String JSONWebKeySet

/-- The `JWKSValidator.fetchJWKS`: GET the URI, require HTTP 200, decode the
body as a JWKS. -/
def JWKSValidator.fetchJWKS (w : HTTPWorld) (uri : String) :
    Except String JSONWebKeySet :=
  match w.httpGet uri with
  | .error e => .error (("failed to fetch JWKS: ") ++ e)
  | .ok resp =>
    if resp.StatusCode ≠ 200 then
      .error (("failed to fetch JWKS: HTTP ") ++ toString resp.StatusCode)
    else
      match w.parseJWKS resp.Body with
      | .error e => .error (("failed to parse JWKS: ") ++ e)
      | .ok jwks => .ok jwks

/-- The JWKS freshness window: `time.Hour`, in seconds. -/
def jwksFreshness : Int := 3600

/-- The `JWKSValidator.getJWKS`: inline data wins; otherwise a cache entry
younger than one hour is used; otherwise fetch and, only on success,
replace the cache entry. Returns the result and the cache state when the
call returns. -/
def JWKSValidator.getJWKS (w : HTTPWorld) (cache : JWKSCache) (now : Int)
    (cluster : ClusterConfig) : Except String JSONWebKeySet × JWKSCache :=
  match cluster.JWKSData with
  | some d => (.ok d, cache)
  | none =>
    match JWKSCache.lookup cache cluster.JWKSURI with
    | some cached =>
      if now - cached.fetchedAt < jwksFreshness then (.ok cached.jwks, cache)
      else
        match JWKSValidator.fetchJWKS w cluster.JWKSURI with
        | .error e => (.error e, cache)
        | .ok jwks => (.ok jwks, JWKSCache.set cache cluster.JWKSURI ⟨jwks, now⟩)
    | none =>
      match JWKSValidator.fetchJWKS w cluster.JWKSURI with
      | .error e => (.error e, cache)
      | .ok jwks => (.ok jwks, JWKSCache.set cache cluster.JWKSURI ⟨jwks, now⟩)

/-! ## External authorization server (`internal/authz/extauthz.go`) -/

/-- The part of the Envoy `CheckRequest` the server reads: the HTTP header
map (`none` when `GetHeaders()` returns a nil map). -/
structure CheckRequest where
  headers : Option (List (String × String))
deriving Repr, DecidableEq

/-- Exact-key lookup in the request header map (`headers["authorization"]`). -/
def headersLookup : List (String × String) → String → Option String
  | [], _ => none
  | p :: rest, key => if p.1 = key then some p.2 else headersLookup rest key

/-- The `strings.HasPrefix s pre` (byte-exact, case-sensitive). -/
def stringHasPrefix (s pre : String) : Bool :=
  List.isPrefixOf pre.data s.data

/-- The `strings.TrimPrefix s pre`: `s` without the leading `pre` when it is a
prefix, `s` unchanged otherwise. -/
def stringTrimPrefix (s pre : String) : String :=
  if stringHasPrefix s pre then ⟨s.data.drop pre.data.length⟩ else s

/-- ASCII lowercasing of a header name, used by the spec-side extraction to
model a case-insensitive header-name lookup. -/
def stringToLower (s : String) : String :=
  ⟨s.data.map Char.toLower⟩

/-- The `extractBearerToken`: requires the headers map, the `authorization`
key, the exact prefix `"Bearer "`, and a non-empty remainder. -/
def extractBearerToken (req : CheckRequest) : Except String String :=
  match req.headers with
  | none => .error ("no headers in request")
  | some headers =>
    match headersLookup headers ("authorization") with
    | none => .error ("authorization header not found")
    | some authHeader =>
      if stringHasPrefix authHeader ("Bearer ") = true then
        if stringTrimPrefix authHeader ("Bearer ") = ("") then
          .error ("bearer token is empty")
        else .ok (stringTrimPrefix authHeader ("Bearer "))
      else .error ("authorization header is not a Bearer token")

/-- gRPC status codes used by the server (`google.golang.org/grpc/codes`). -/
def codeOK : Int := 0
/-- gRPC `codes.PermissionDenied`. -/
def codePermissionDenied : Int := 7
/-- gRPC `codes.NotFound`. -/
def codeNotFound : Int := 5
/-- gRPC `codes.Internal`. -/
def codeInternal : Int := 13
/-- gRPC `codes.Unavailable`. -/
def codeUnavailable : Int := 14
/-- gRPC `codes.Unauthenticated`. -/
def codeUnauthenticated : Int := 16

/-- The `httpStatusFromGRPCCode`. -/
def httpStatusFromGRPCCode (code : Int) : Int :=
  if code = codeOK then 200
  else if code = codeUnauthenticated then 401
  else if code = codePermissionDenied then 403
  else if code = codeNotFound then 404
  else if code = codeInternal then 500
  else if code = codeUnavailable then 503
  else 500

/-- A header mutation carried by an OK response. -/
structure HeaderValueOption where
  Key : String
  Value : String
deriving Repr, DecidableEq

/-- The `HttpResponse` oneof of `CheckResponse`. -/
inductive HttpResponsePart where
  | okResponse (headers : List HeaderValueOption)
  | deniedResponse (httpStatus : Int) (body : String)
deriving Repr, DecidableEq

/-- The fields of the Envoy `CheckResponse` the server populates. -/
structure CheckResponse where
  statusCode : Int
  statusMessage : String
  http : HttpResponsePart
deriving Repr, DecidableEq

/-- The `Server.okResponseWithToken`: OK with the `authorization` header
rewritten to the minted token. -/
def Server.okResponseWithToken (token : String) : CheckResponse :=
  { statusCode := codeOK
    statusMessage := ("")
    http := .okResponse [⟨("authorization"), ("Bearer ") ++ token⟩] }

/-- The `Server.denyResponse`: DENY with the given gRPC code and message, and
the mapped HTTP status. -/
def Server.denyResponse (code : Int) (message : String) : CheckResponse :=
  { statusCode := code
    statusMessage := message
    http := .deniedResponse (httpStatusFromGRPCCode code) message }

/-- The `Server.Check`. The validator (`s.validator.Validate`) and exchanger
(`s.exchanger.Exchange`) are the oracles `validate` and `exchange`; each
failing Go call becomes an `Except.error`. -/
def Server.Check (validate : String → Except String ServiceAccountIdentity)
    (exchange : ServiceAccountIdentity → Except String String)
    (req : CheckRequest) : CheckResponse :=
  match extractBearerToken req with
  | .error _ =>
    Server.denyResponse codeUnauthenticated ("Missing or invalid Authorization header")
  | .ok bearerToken =>
    match validate bearerToken with
    | .error _ =>
      Server.denyResponse codeUnauthenticated ("Token validation failed")
    | .ok identity =>
      match exchange identity with
      | .error _ =>
        Server.denyResponse codePermissionDenied ("Token exchange failed")
      | .ok managementToken =>
        Server.okResponseWithToken managementToken

/-- The extraction the spec describes, for comparison with
`extractBearerToken`: identical except that the `authorization` header is
looked up case-insensitively by name. -/
def specExtractBearerToken (req : CheckRequest) : Except String String :=
  match req.headers with
  | none => .error ("no headers in request")
  | some headers =>
    match (headers.find? (fun p => stringToLower p.1 == ("authorization"))).map
        (fun p => p.2) with
    | none => .error ("authorization header not found")
    | some authHeader =>
      if stringHasPrefix authHeader ("Bearer ") = true then
        if stringTrimPrefix authHeader ("Bearer ") = ("") then
          .error ("bearer token is empty")
        else .ok (stringTrimPrefix authHeader ("Bearer "))
      else .error ("authorization header is not a Bearer token")

/-! ## Concrete fixtures used by the witnesses and counterexamples -/

/-- A workload identity whose UID is `u`. -/
def identity0 : ServiceAccountIdentity :=
  ⟨("default"), ("eso-sa"), ("u"), ("system:serviceaccount:default:eso-sa")⟩

/-- An exchange configuration with the source defaults. -/
def config0 : ExchangeConfig := ⟨[("https://kubernetes.default.svc")], 3600⟩

/-- A management cluster where the service account exists (with UID
`mgmt-uid`, distinct from the workload UID) and token creation succeeds. -/
def okClient : KubeClient :=
  ⟨fun _ _ => .ok ⟨("mgmt-uid")⟩, fun _ _ _ => .ok ⟨("tok"), 100⟩⟩

/-- A management cluster where the service-account lookup fails. -/
def failClient : KubeClient :=
  ⟨fun _ _ => .error ("not found"), fun _ _ _ => .error ("not found")⟩

/-- A token cache holding an unexpired token for `identity0`. -/
def hitCache : Cache := [(("u"), ⟨("t"), 100⟩)]

/-- A registry entry with both inline JWKS data and a non-empty JWKS URI. -/
def bothSetCluster : ClusterConfig :=
  ⟨("c1"), ("https://iss.example"), ("https://jwks.example/keys"),
   some ⟨[⟨("k1")⟩]⟩⟩

/-- A one-entry registry whose entry sets both key sources. -/
def bothSetConfig : ClustersConfig := ⟨[bothSetCluster]⟩

/-- A request whose `authorization` header name is capitalized. -/
def mixedCaseReq : CheckRequest :=
  ⟨some [(("Authorization"), ("Bearer abc"))]⟩

/-- A request with a well-formed lowercase bearer header. -/
def bearerReq : CheckRequest :=
  ⟨some [(("authorization"), ("Bearer abc"))]⟩

/-- A validator oracle that rejects every credential. -/
def denyingValidator : String → Except String ServiceAccountIdentity :=
  fun _ => .error ("invalid token")

/-- An exchanger oracle that fails every exchange. -/
def failingExchanger : ServiceAccountIdentity → Except String String :=
  fun _ => .error ("sa not found")

/-- An HTTP world whose server answers 500 to every GET. -/
def http500 : HTTPWorld :=
  ⟨fun _ => .ok ⟨500, ("")⟩, fun _ => .error ("unreachable")⟩

/-- A cluster entry that carries only a remote JWKS URI. -/
def remoteCluster : ClusterConfig :=
  ⟨("c2"), ("https://iss2.example"), ("https://jwks.example/keys"), none⟩

/-- A JWKS cache holding a stale (fetched at instant 0) entry for the
remote URI. -/
def staleJWKSCache : JWKSCache :=
  [(("https://jwks.example/keys"), ⟨⟨[⟨("old")⟩]⟩, 0⟩)]

/-! ## Claims about the exchanger -/

/-- Helper: the result of `ExchangeWithMetadata` on a cache hit. -/
theorem exchangeWithMetadata_hit (client : KubeClient) (config : ExchangeConfig)
    (cache : Cache) (now : Int) (identity : ServiceAccountIdentity)
    (hHit : (Cache.Get cache now identity.UID).2 = true) :
    (Exchanger.ExchangeWithMetadata client config cache now identity).1 =
      .ok ⟨(Cache.Get cache now identity.UID).1, identity.Namespace,
           identity.Name, now + config.ExpirationSeconds, identity.UID⟩ := by
  unfold Exchanger.ExchangeWithMetadata
  split
  · rename_i token hGet
    rw [hGet]
  · rename_i pr hGet
    rw [hGet] at hHit
    simp at hHit

/-- C1: every management-cluster call made by `Exchange` or
`ExchangeWithMetadata` (GetServiceAccount and CreateToken) passes exactly
the validated identity's namespace and name, unaltered; the exchanger does
no identity mapping, renaming, or namespace translation. -/
theorem c1_identity_preservation :
    ∀ (client : KubeClient) (config : ExchangeConfig) (cache : Cache)
      (now : Int) (identity : ServiceAccountIdentity),
      ((Exchanger.Exchange client config cache now identity).2.2.all
        (fun c => c.ns == identity.Namespace && c.name == identity.Name)) = true ∧
      ((Exchanger.ExchangeWithMetadata client config cache now identity).2.2.all
        (fun c => c.ns == identity.Namespace && c.name == identity.Name)) = true := by
  intro client config cache now identity
  constructor
  · unfold Exchanger.Exchange
    split
    · rfl
    · split
      · simp [MgmtCall.ns, MgmtCall.name]
      · split
        · simp [MgmtCall.ns, MgmtCall.name]
        · split
          · simp [MgmtCall.ns, MgmtCall.name]
          · simp [MgmtCall.ns, MgmtCall.name]
  · unfold Exchanger.ExchangeWithMetadata
    split
    · rfl
    · split
      · simp [MgmtCall.ns, MgmtCall.name]
      · split
        · simp [MgmtCall.ns, MgmtCall.name]
        · split
          · simp [MgmtCall.ns, MgmtCall.name]
          · simp [MgmtCall.ns, MgmtCall.name]

/-- C5: whenever `Exchange` or `ExchangeWithMetadata` returns an error
(service-account lookup failure, token-creation failure, or an empty minted
JWT), the token cache is left exactly as it was. -/
theorem c5_no_leak_on_failure :
    ∀ (client : KubeClient) (config : ExchangeConfig) (cache : Cache)
      (now : Int) (identity : ServiceAccountIdentity) (e : String),
      ((Exchanger.Exchange client config cache now identity).1 = .error e →
        (Exchanger.Exchange client config cache now identity).2.1 = cache) ∧
      ((Exchanger.ExchangeWithMetadata client config cache now identity).1 = .error e →
        (Exchanger.ExchangeWithMetadata client config cache now identity).2.1 = cache) := by
  intro client config cache now identity e
  constructor
  · unfold Exchanger.Exchange
    split
    · intro h
      exact absurd h (by simp)
    · split
      · intro _
        rfl
      · split
        · intro _
          rfl
        · split
          · intro _
            rfl
          · intro h
            exact absurd h (by simp)
  · unfold Exchanger.ExchangeWithMetadata
    split
    · intro h
      exact absurd h (by simp)
    · split
      · intro _
        rfl
      · split
        · intro _
          rfl
        · split
          · intro _
            rfl
          · intro h
            exact absurd h (by simp)

/-- Witness for C5: a failing service-account lookup leaves the (empty)
cache unchanged, in both entrypoints. -/
theorem c5_no_leak_on_failure_witness :
    (Exchanger.Exchange failClient config0 [] 0 identity0).2.1 = [] ∧
    (Exchanger.ExchangeWithMetadata failClient config0 [] 0 identity0).2.1 = [] :=
  ⟨(c5_no_leak_on_failure failClient config0 [] 0 identity0
      (("service account not found in management cluster: ") ++ ("not found"))).1 rfl,
   (c5_no_leak_on_failure failClient config0 [] 0 identity0
      (("service account not found in management cluster: ") ++ ("not found"))).2 rfl⟩

/-- C9: on a token-cache hit, `ExchangeWithMetadata` reports the
expiration as `now + ExpirationSeconds` (the configured TTL from the
current instant), regardless of the `expiresAt` stored when the token was
minted. -/
theorem c9_cache_hit_expiration :
    ∀ (client : KubeClient) (config : ExchangeConfig) (cache : Cache)
      (now : Int) (identity : ServiceAccountIdentity),
      (Cache.Get cache now identity.UID).2 = true →
      (Exchanger.ExchangeWithMetadata client config cache now identity).1 =
        .ok ⟨(Cache.Get cache now identity.UID).1, identity.Namespace,
             identity.Name, now + config.ExpirationSeconds, identity.UID⟩ := by
  intro client config cache now identity hHit
  exact exchangeWithMetadata_hit client config cache now identity hHit

/-- Witness for C9: a cache entry minted to expire at instant 100 is
reported, at instant 90, as expiring at 3690 = 90 + 3600. -/
theorem c9_cache_hit_expiration_witness :
    (Exchanger.ExchangeWithMetadata okClient config0 hitCache 90 identity0).1 =
      .ok ⟨("t"), ("default"), ("eso-sa"), 3690, ("u")⟩ :=
  c9_cache_hit_expiration okClient config0 hitCache 90 identity0 (by decide)

/-- C10: the `ServiceAccountUID` reported by `ExchangeWithMetadata` is the
workload-side `identity.UID` on a cache hit but the management-side
`sa.UID` (from GetServiceAccount) on a cache miss, and for the same
identity the two paths can report different UIDs. -/
theorem c10_sa_uid_inconsistent :
    (∀ (client : KubeClient) (config : ExchangeConfig) (cache : Cache)
       (now : Int) (identity : ServiceAccountIdentity),
       (Cache.Get cache now identity.UID).2 = true →
       ∃ md, (Exchanger.ExchangeWithMetadata client config cache now identity).1 =
           .ok md ∧ md.ServiceAccountUID = identity.UID) ∧
    (∀ (client : KubeClient) (config : ExchangeConfig) (cache : Cache)
       (now : Int) (identity : ServiceAccountIdentity)
       (sa : ServiceAccount) (result : TokenRequestStatus),
       (Cache.Get cache now identity.UID).2 = false →
       client.getServiceAccount identity.Namespace identity.Name = .ok sa →
       client.createToken identity.Namespace identity.Name
         config.tokenRequest = .ok result →
       ¬ result.Token = ("") →
       ∃ md, (Exchanger.ExchangeWithMetadata client config cache now identity).1 =
           .ok md ∧ md.ServiceAccountUID = sa.UID) ∧
    (∃ md₁ md₂,
       (Exchanger.ExchangeWithMetadata okClient config0 hitCache 90 identity0).1 =
         .ok md₁ ∧
       (Exchanger.ExchangeWithMetadata okClient config0 [] 90 identity0).1 =
         .ok md₂ ∧
       ¬ md₁.ServiceAccountUID = md₂.ServiceAccountUID) := by
  refine ⟨?_, ?_, ?_⟩
  · intro client config cache now identity hHit
    refine ⟨_, exchangeWithMetadata_hit client config cache now identity hHit, rfl⟩
  · intro client config cache now identity sa result hMiss hSA hTok hNE
    refine ⟨⟨result.Token, identity.Namespace, identity.Name,
             result.ExpirationTimestamp, sa.UID⟩, ?_, rfl⟩
    unfold Exchanger.ExchangeWithMetadata
    split
    · rename_i token hGet
      rw [hGet] at hMiss
      simp at hMiss
    · simp only [hSA]
      simp only [hTok]
      rw [if_neg hNE]
  · refine ⟨⟨("t"), ("default"), ("eso-sa"), 3690, ("u")⟩,
            ⟨("tok"), ("default"), ("eso-sa"), 100, ("mgmt-uid")⟩, ?_, ?_, by decide⟩
    · rfl
    · rfl

/-- Witness for C10: the hit path at a concrete input reports the
workload-side UID. -/
theorem c10_sa_uid_inconsistent_witness :
    ∃ md, (Exchanger.ExchangeWithMetadata okClient config0 hitCache 90 identity0).1 =
        .ok md ∧ md.ServiceAccountUID = identity0.UID :=
  c10_sa_uid_inconsistent.1 okClient config0 hitCache 90 identity0 (by decide)

/-! ## Claims about the token cache -/

/-- Helper: filtering cannot create a binding that was absent. -/
theorem getEntry_filter_none (l : List (String × cacheEntry)) (uid : String)
    (q : String × cacheEntry → Bool) (h : Cache.getEntry l uid = none) :
    Cache.getEntry (l.filter q) uid = none := by
  induction l with
  | nil => rfl
  | cons p rest ih =>
    unfold Cache.getEntry at h
    by_cases hp : p.1 = uid
    · rw [if_pos hp] at h
      exact Option.noConfusion h
    · rw [if_neg hp] at h
      rw [List.filter_cons]
      split
      · unfold Cache.getEntry
        rw [if_neg hp]
        exact ih h
      · exact ih h

/-- Helper: a uid that occurs under no key of the list has no entry. -/
theorem getEntry_eq_none_of_not_mem (l : List (String × cacheEntry)) (uid : String)
    (h : uid ∉ l.map Prod.fst) : Cache.getEntry l uid = none := by
  induction l with
  | nil => rfl
  | cons p rest ih =>
    rw [List.map_cons, List.mem_cons, not_or] at h
    unfold Cache.getEntry
    rw [if_neg (fun hp => h.1 hp.symm)]
    exact ih h.2

/-- Helper: on a cache whose keys are distinct (the Go map invariant),
`cleanup` removes the binding of an expired entry. -/
theorem cleanup_removes (c : Cache) (now : Int) (uid : String) (e : cacheEntry)
    (hwf : (c.map Prod.fst).Nodup) (hE : Cache.getEntry c uid = some e)
    (hex : e.expiresAt < now) :
    Cache.getEntry (Cache.cleanup c now) uid = none := by
  induction c with
  | nil => exact Option.noConfusion hE
  | cons p rest ih =>
    rw [List.map_cons, List.nodup_cons] at hwf
    unfold Cache.getEntry at hE
    unfold Cache.cleanup
    rw [List.filter_cons]
    by_cases hp : p.1 = uid
    · rw [if_pos hp] at hE
      injection hE with hEp
      split
      · rename_i hcond
        rw [hEp] at hcond
        simp [hex] at hcond
      · exact getEntry_filter_none rest uid _
          (getEntry_eq_none_of_not_mem rest uid (hp ▸ hwf.1))
    · rw [if_neg hp] at hE
      split
      · unfold Cache.getEntry
        rw [if_neg hp]
        exact ih hwf.2 hE
      · exact ih hwf.2 hE

/-- C6 is refuted: the claim says an entry with `expiresAt = now` is never
returned (`present=false` when `expiresAt ≤ now`), but `Get` uses
`time.Now().After(expiresAt)` — strict — so at `expiresAt = now` the token
is returned with `present=true`. -/
theorem c6_counterexample :
    ¬ (∀ (c : Cache) (now : Int) (uid : String),
        (Cache.Get c now uid).2 = false ↔
          (Cache.getEntry c uid = none ∨
           ∃ e, Cache.getEntry c uid = some e ∧ e.expiresAt ≤ now)) := by
  intro h
  have hb := (h [(("u"), ⟨("t"), 5⟩)] 5 ("u")).mpr
    (Or.inr ⟨⟨("t"), 5⟩, rfl, by decide⟩)
  exact absurd hb (by decide)

/-- C6 (amended): `Get(uid)` reports `present=false` exactly when no entry
exists for uid or the entry's `expiresAt < now` (strictly); an entry whose
`expiresAt` equals the current instant is still returned. -/
theorem c6_get_semantics :
    ∀ (c : Cache) (now : Int) (uid : String),
      (Cache.Get c now uid).2 = false ↔
        (Cache.getEntry c uid = none ∨
         ∃ e, Cache.getEntry c uid = some e ∧ e.expiresAt < now) := by
  intro c now uid
  unfold Cache.Get
  split
  · rename_i hE
    simp [hE]
  · rename_i entry hE
    rw [hE]
    by_cases hx : entry.expiresAt < now
    · simp [hx]
    · simp [hx]

/-- C7 is refuted: `Get` on an expired entry does not remove it — the Go
method takes only the read lock and performs no deletion, so the entry is
still in the map after `Get` returns. -/
theorem c7_counterexample :
    ¬ (∀ (c : Cache) (now : Int) (uid : String) (e : cacheEntry),
        Cache.getEntry c uid = some e → e.expiresAt ≤ now →
        Cache.getEntry (Cache.GetStateful c now uid).2 uid = none) := by
  intro h
  have hnone := h [(("u"), ⟨("t"), 5⟩)] 10 ("u") ⟨("t"), 5⟩ rfl (by decide)
  exact absurd hnone (by decide)

/-- C7 (amended): an expired entry (strictly past its `expiresAt`, the
code's expiry test) is never returned by `Get` and is removed by the
cleanup sweep, but `Get` itself leaves the cache unchanged — the entry
becomes physically absent only when the sweeper runs. -/
theorem c7_expired_entry_lifecycle :
    ∀ (c : Cache) (now : Int) (uid : String) (e : cacheEntry),
      (c.map Prod.fst).Nodup →
      Cache.getEntry c uid = some e → e.expiresAt < now →
      ((Cache.GetStateful c now uid).2 = c ∧
       (Cache.Get c now uid).2 = false ∧
       Cache.getEntry (Cache.cleanup c now) uid = none) := by
  intro c now uid e hwf hE hex
  refine ⟨rfl, ?_, cleanup_removes c now uid e hwf hE hex⟩
  unfold Cache.Get
  simp only [hE]
  rw [if_pos hex]

/-- Witness for C7 (amended): a concrete expired entry survives `Get`
untouched, is reported absent, and is removed by `cleanup`. -/
theorem c7_expired_entry_lifecycle_witness :
    (Cache.GetStateful [(("u"), ⟨("t"), 5⟩)] 10 ("u")).2 = [(("u"), ⟨("t"), 5⟩)] ∧
    (Cache.Get [(("u"), ⟨("t"), 5⟩)] 10 ("u")).2 = false ∧
    Cache.getEntry (Cache.cleanup [(("u"), ⟨("t"), 5⟩)] 10) ("u") = none :=
  c7_expired_entry_lifecycle [(("u"), ⟨("t"), 5⟩)] 10 ("u") ⟨("t"), 5⟩
    (by decide) rfl (by decide)

/-! ## Claims about the cluster registry -/

/-- C2 is refuted: validation only requires *at least one* of inline JWKS
data and JWKS URI, so a registry whose entry sets both passes construction
instead of failing. -/
theorem c2_counterexample :
    ¬ (∀ (cfg : ClustersConfig) (cl : ClusterConfig), cl ∈ cfg.Clusters →
        ¬ cl.JWKSData = none → ¬ cl.JWKSURI = ("") →
        ∃ e, ClustersConfig.Validate cfg = .error e) := by
  intro h
  obtain ⟨e, he⟩ := h bothSetConfig bothSetCluster (List.Mem.head _)
    (by decide) (by decide)
  rw [show ClustersConfig.Validate bothSetConfig = .ok () from rfl] at he
  exact Except.noConfusion he

/-- C2 (amended): an entry carrying both inline JWKS data (with at least
one key) and a non-empty JWKS URI passes entry validation; entry validation
rejects the key-source fields only when both are absent or when the inline
set is empty. -/
theorem c2_both_set_accepted :
    ∀ (c : ClusterConfig) (d : JSONWebKeySet),
      ¬ c.Name = ("") → ¬ c.Issuer = ("") → ¬ c.JWKSURI = ("") →
      c.JWKSData = some d → ¬ d.Keys.length = 0 →
      ClusterConfig.Validate c = .ok () := by
  intro c d hn hi hu hd hk
  unfold ClusterConfig.Validate
  rw [if_neg hn, if_neg hi, if_neg (fun hcon => hu hcon.1)]
  simp only [hd]
  rw [if_neg hk]

/-- Witness for C2 (amended): the concrete both-set entry validates. -/
theorem c2_both_set_accepted_witness :
    ClusterConfig.Validate bothSetCluster = .ok () :=
  c2_both_set_accepted bothSetCluster ⟨[⟨("k1")⟩]⟩
    (by decide) (by decide) (by decide) rfl (by decide)

/-! ## Claims about the decision engine -/

/-- C3 is refuted: the code looks the `authorization` header up by the
exact (lowercase) key, not case-insensitively — a request whose header map
carries the key `Authorization` is rejected although the case-insensitive
extraction the claim describes would accept it. -/
theorem c3_counterexample :
    ¬ (∀ (req : CheckRequest),
        extractBearerToken req = specExtractBearerToken req) := by
  intro h
  have hmix := h mixedCaseReq
  rw [show extractBearerToken mixedCaseReq =
        .error ("authorization header not found") from rfl,
      show specExtractBearerToken mixedCaseReq = .ok ("abc") from rfl] at hmix
  exact Except.noConfusion hmix

/-- Helper: exact characterization of successful bearer extraction. -/
theorem extractBearerToken_eq_ok (req : CheckRequest) (t : String) :
    extractBearerToken req = .ok t ↔
      ∃ hs v, req.headers = some hs ∧
        headersLookup hs ("authorization") = some v ∧
        stringHasPrefix v ("Bearer ") = true ∧
        t = stringTrimPrefix v ("Bearer ") ∧ ¬ t = ("") := by
  unfold extractBearerToken
  split
  · rename_i hh
    simp [hh]
  · rename_i hs hh
    rw [hh]
    split
    · rename_i hl
      simp [hl]
    · rename_i v hl
      by_cases hbp : stringHasPrefix v ("Bearer ") = true
      · rw [if_pos hbp]
        by_cases hemp : stringTrimPrefix v ("Bearer ") = ("")
        · rw [if_pos hemp]
          constructor
          · intro hcon
            exact Except.noConfusion hcon
          · rintro ⟨hs', v', hh', hl', hbp', ht, hne⟩
            injection hh' with hh'
            subst hh'
            rw [hl] at hl'
            injection hl' with hl'
            subst hl'
            exact absurd (ht.trans hemp) hne
        · rw [if_neg hemp]
          constructor
          · intro hok
            injection hok with hok
            exact ⟨hs, v, rfl, hl, hbp, hok.symm, hok ▸ hemp⟩
          · rintro ⟨hs', v', hh', hl', hbp', ht, hne⟩
            injection hh' with hh'
            subst hh'
            rw [hl] at hl'
            injection hl' with hl'
            subst hl'
            rw [ht]
      · rw [if_neg hbp]
        constructor
        · intro hcon
          exact Except.noConfusion hcon
        · rintro ⟨hs', v', hh', hl', hbp', ht, hne⟩
          injection hh' with hh'
          subst hh'
          rw [hl] at hl'
          injection hl' with hl'
          subst hl'
          exact absurd hbp' hbp

/-- C3 (amended): the `authorization` header is looked up by its exact
lowercase name (Envoy delivers header names lowercased; the lookup itself
is case-sensitive); extraction succeeds exactly when that key holds a value
with the case-sensitive prefix `"Bearer "` (single space) and a non-empty
remainder, which is the credential passed onward; any failure makes `Check`
deny with Unauthenticated. -/
theorem c3_bearer_extraction :
    ∀ (validate : String → Except String ServiceAccountIdentity)
      (exchange : ServiceAccountIdentity → Except String String)
      (req : CheckRequest),
      (∀ t, extractBearerToken req = .ok t ↔
        ∃ hs v, req.headers = some hs ∧
          headersLookup hs ("authorization") = some v ∧
          stringHasPrefix v ("Bearer ") = true ∧
          t = stringTrimPrefix v ("Bearer ") ∧ ¬ t = ("")) ∧
      ((∃ e, extractBearerToken req = .error e) →
        Server.Check validate exchange req =
          Server.denyResponse codeUnauthenticated
            ("Missing or invalid Authorization header")) := by
  intro validate exchange req
  refine ⟨fun t => extractBearerToken_eq_ok req t, ?_⟩
  rintro ⟨e, he⟩
  unfold Server.Check
  rw [he]

/-- Witness for C3 (amended): a missing header map denies, and the
well-formed request extracts the credential `abc`. -/
theorem c3_bearer_extraction_witness :
    Server.Check denyingValidator failingExchanger ⟨none⟩ =
      Server.denyResponse codeUnauthenticated
        ("Missing or invalid Authorization header") ∧
    extractBearerToken bearerReq = .ok ("abc") :=
  ⟨(c3_bearer_extraction denyingValidator failingExchanger ⟨none⟩).2 ⟨_, rfl⟩,
   ((c3_bearer_extraction denyingValidator failingExchanger bearerReq).1 ("abc")).mpr
     ⟨[(("authorization"), ("Bearer abc"))], ("Bearer abc"), rfl, rfl,
      by decide, by decide, by decide⟩⟩

/-- C4: past a successful extraction, a validator failure denies with
Unauthenticated and message `Token validation failed`, an exchanger failure
after successful validation denies with PermissionDenied and message
`Token exchange failed`, and no other deny outcome exists. -/
theorem c4_failure_collapse :
    ∀ (validate : String → Except String ServiceAccountIdentity)
      (exchange : ServiceAccountIdentity → Except String String)
      (req : CheckRequest) (t : String),
      extractBearerToken req = .ok t →
      ((∃ e, validate t = .error e) →
        Server.Check validate exchange req =
          Server.denyResponse codeUnauthenticated ("Token validation failed")) ∧
      (∀ identity, validate t = .ok identity →
        (∃ e, exchange identity = .error e) →
        Server.Check validate exchange req =
          Server.denyResponse codePermissionDenied ("Token exchange failed")) ∧
      (¬ (Server.Check validate exchange req).statusCode = codeOK →
        Server.Check validate exchange req =
          Server.denyResponse codeUnauthenticated ("Token validation failed") ∨
        Server.Check validate exchange req =
          Server.denyResponse codePermissionDenied ("Token exchange failed")) := by
  intro validate exchange req t hx
  have hc : Server.Check validate exchange req =
      match validate t with
      | .error _ =>
        Server.denyResponse codeUnauthenticated ("Token validation failed")
      | .ok identity =>
        match exchange identity with
        | .error _ =>
          Server.denyResponse codePermissionDenied ("Token exchange failed")
        | .ok managementToken => Server.okResponseWithToken managementToken := by
    unfold Server.Check
    rw [hx]
  refine ⟨?_, ?_, ?_⟩
  · rintro ⟨e, he⟩
    rw [hc]
    simp only [he]
  · rintro identity hv ⟨e, he⟩
    rw [hc]
    simp only [hv]
    simp only [he]
  · intro hne
    cases hval : validate t with
    | error e =>
      refine Or.inl ?_
      rw [hc]
      simp only [hval]
    | ok identity =>
      cases hexc : exchange identity with
      | error e =>
        refine Or.inr ?_
        rw [hc]
        simp only [hval]
        simp only [hexc]
      | ok tok =>
        exfalso
        apply hne
        rw [hc]
        simp only [hval]
        simp only [hexc]
        rfl

/-- Witness for C4: with a rejecting validator, the concrete bearer request
denies with Unauthenticated and the generic validation message. -/
theorem c4_failure_collapse_witness :
    Server.Check denyingValidator failingExchanger bearerReq =
      Server.denyResponse codeUnauthenticated ("Token validation failed") :=
  (c4_failure_collapse denyingValidator failingExchanger bearerReq ("abc")
    rfl).1 ⟨("invalid token"), rfl⟩

/-! ## Claims about the JWKS provider -/

/-- C8: when a `getJWKS` call on a cluster with a remote JWKS URI actually
fetches (no inline data, no fresh cache entry) and the fetch fails with a
non-2xx status or a body parse failure, the fetch error is returned and the
JWKS cache — in particular any previously cached entry for that URI — is
left exactly as it was. -/
theorem c8_fetch_failure_atomicity :
    ∀ (w : HTTPWorld) (cache : JWKSCache) (now : Int) (cluster : ClusterConfig),
      cluster.JWKSData = none →
      (∀ cached, JWKSCache.lookup cache cluster.JWKSURI = some cached →
        ¬ (now - cached.fetchedAt < jwksFreshness)) →
      ((∃ resp, w.httpGet cluster.JWKSURI = .ok resp ∧
          ¬ (200 ≤ resp.StatusCode ∧ resp.StatusCode < 300)) ∨
       (∃ resp perr, w.httpGet cluster.JWKSURI = .ok resp ∧
          resp.StatusCode = 200 ∧ w.parseJWKS resp.Body = .error perr)) →
      ∃ e, JWKSValidator.fetchJWKS w cluster.JWKSURI = .error e ∧
        JWKSValidator.getJWKS w cache now cluster = (.error e, cache) := by
  intro w cache now cluster hinline hstale hfail
  have hfetch : ∃ e, JWKSValidator.fetchJWKS w cluster.JWKSURI = .error e := by
    unfold JWKSValidator.fetchJWKS
    rcases hfail with ⟨resp, hresp, hcode⟩ | ⟨resp, perr, hresp, hcode, hparse⟩
    · simp only [hresp]
      have hne : resp.StatusCode ≠ 200 := by
        intro h200
        exact hcode (by omega)
      rw [if_pos hne]
      exact ⟨_, rfl⟩
    · simp only [hresp]
      rw [if_neg (by simp [hcode])]
      simp only [hparse]
      exact ⟨_, rfl⟩
  obtain ⟨e, he⟩ := hfetch
  refine ⟨e, he, ?_⟩
  unfold JWKSValidator.getJWKS
  simp only [hinline]
  cases hlk : JWKSCache.lookup cache cluster.JWKSURI with
  | none =>
    simp only [hlk]
    simp only [he]
  | some cached =>
    simp only [hlk]
    rw [if_neg (hstale cached hlk)]
    simp only [he]

/-- Witness for C8: an HTTP 500 at the remote URI leaves the stale cache
entry in place and surfaces the fetch error. -/
theorem c8_fetch_failure_atomicity_witness :
    ∃ e, JWKSValidator.fetchJWKS http500 remoteCluster.JWKSURI = .error e ∧
      JWKSValidator.getJWKS http500 staleJWKSCache 100000 remoteCluster =
        (.error e, staleJWKSCache) :=
  c8_fetch_failure_atomicity http500 staleJWKSCache 100000 remoteCluster rfl
    (by
      intro cached h
      rw [show JWKSCache.lookup staleJWKSCache remoteCluster.JWKSURI =
            some ⟨⟨[⟨("old")⟩]⟩, 0⟩ from rfl] at h
      injection h with h
      subst h
      decide)
    (Or.inl ⟨⟨500, ("")⟩, rfl, by decide⟩)

end Tokensmith
